import Mathlib

/-!
Shallow embedding of the contact-relationship tracker core: the `Contact`
record and its overdue predicate (internal/db/models.go), and the mutation
protocol over an explicit database state (internal/db/db.go), including the
`update_contact_timestamp` trigger installed by the schema, which fires
AFTER UPDATE ON contacts and sets `updated_at = CURRENT_TIMESTAMP` for the
updated row.  Timestamps are modelled as exact rationals counting seconds;
Go's `time.Since(t).Hours() / 24` becomes `(now - t) / 3600 / 24`.
-/

/-- A row of the `contacts` table (`struct Contact`, internal/db/models.go).
Nullable columns (`sql.NullString`, `sql.NullTime`, `sql.NullInt64`) are
`Option`s; time instants are rationals counting seconds. -/
structure Contact where
  id : Nat
  name : String
  email : Option String
  phone : Option String
  company : Option String
  relationshipType : String
  state : Option String
  notes : Option String
  label : Option String
  basicMemoryURL : Option String
  contactedAt : Option ℚ
  lastBumpDate : Option ℚ
  bumpCount : Int
  followUpDate : Option ℚ
  deadlineDate : Option ℚ
  archived : Bool
  archivedAt : Option ℚ
  contactStyle : String
  customFrequencyDays : Option Int
  createdAt : ℚ
  updatedAt : ℚ
deriving DecidableEq

/-- A row of the `contact_interactions` table (`struct Log`,
internal/db/models.go). -/
structure Log where
  id : Nat
  contactID : Nat
  interactionDate : ℚ
  interactionType : String
  notes : Option String
  createdAt : ℚ
deriving DecidableEq

/-- The `switch c.RelationshipType` fallback at the end of
`Contact.IsOverdue` (internal/db/models.go): `close`/`family` use a 30-day
threshold, `network` 90 days, everything else 60 days, compared strictly. -/
def overdueByType (rt : String) (daysSince : ℚ) : Bool :=
  if rt = "close" ∨ rt = "family" then decide (daysSince > 30)
  else if rt = "network" then decide (daysSince > 90)
  else decide (daysSince > 60)

/-- The tail of `Contact.IsOverdue` once `daysSince` is known: the
`CustomFrequencyDays.Valid && Int64 > 0` check, falling back to the
relationship-type switch. -/
def thresholdCheck (c : Contact) (daysSince : ℚ) : Bool :=
  match c.customFrequencyDays with
  | some d =>
      if 0 < d then decide (daysSince > (d : ℚ))
      else overdueByType c.relationshipType daysSince
  | none => overdueByType c.relationshipType daysSince

/-- `Contact.IsOverdue` (internal/db/models.go, lines 44-91), translated
branch for branch.  `ca.After(lb)` is `lb < ca`; `Valid` flags become
`Option` matching; `time.Since(t).Hours() / 24` is `(now - t) / 3600 / 24`
over exact rationals. -/
def Contact.IsOverdue (c : Contact) (now : ℚ) : Bool :=
  if c.archived then false
  else if c.contactStyle = "ambient" ∨ c.contactStyle = "triggered" then false
  else
    let lastInteraction : Option ℚ :=
      match c.contactedAt, c.lastBumpDate with
      | some ca, some lb => if lb < ca then some ca else some lb
      | some ca, none => some ca
      | none, some lb => some lb
      | none, none => none
    match lastInteraction with
    | none => true
    | some t => thresholdCheck c ((now - t) / 3600 / 24)

/-- A convenient all-defaults contact used to build concrete instances. -/
def baseContact : Contact :=
  { id := 1, name := "Jane Doe", email := none, phone := none,
    company := none, relationshipType := "work", state := none,
    notes := none, label := none, basicMemoryURL := none,
    contactedAt := none, lastBumpDate := none, bumpCount := 0,
    followUpDate := none, deadlineDate := none, archived := false,
    archivedAt := none, contactStyle := "periodic",
    customFrequencyDays := none, createdAt := 0, updatedAt := 0 }

/-- The persistent store consumed by the mutation protocol: the rows of
`contacts` and `contact_interactions` plus the autoincrement counter of
each table. -/
structure DBState where
  contacts : List Contact
  logs : List Log
  nextContactId : Nat
  nextLogId : Nat
deriving DecidableEq

/-- SQL `UPDATE contacts SET ... WHERE id = cid` combined with the schema
trigger `update_contact_timestamp`, which fires after every update of a
contacts row and sets that row's `updated_at` to the current timestamp. -/
def updateWhereId (l : List Contact) (cid : Nat) (f : Contact → Contact) (now : ℚ) : List Contact :=
  l.map fun c => if c.id = cid then { f c with updatedAt := now } else c

/-- SQL `INSERT INTO contact_interactions (contact_id, interaction_date,
interaction_type, notes) VALUES (cid, now, itype, notes)`. -/
def insertLog (s : DBState) (cid : Nat) (itype : String) (notes : Option String) (now : ℚ) : DBState :=
  { s with
    logs := s.logs ++ [{ id := s.nextLogId, contactID := cid,
                         interactionDate := now, interactionType := itype,
                         notes := notes, createdAt := now }],
    nextLogId := s.nextLogId + 1 }

/-- `GetContact` (internal/db/db.go): the contacts row with the given id,
if any. -/
def getContact (s : DBState) (cid : Nat) : Option Contact :=
  s.contacts.find? fun c => c.id = cid

/-- `MarkContacted` (internal/db/db.go, lines 88-111), successful path:
sets the row's `contacted_at` to the current timestamp and inserts one
interaction-log row carrying the given type and notes (a Go string, bound
non-NULL even when empty). -/
def markContacted (s : DBState) (cid : Nat) (itype notes : String) (now : ℚ) : DBState :=
  let updated := updateWhereId s.contacts cid (fun c => { c with contactedAt := some now }) now
  insertLog { s with contacts := updated } cid itype (some notes) now

/-- `BumpContact` (internal/db/db.go, lines 240-269), successful path:
sets `last_bump_date`, increments `bump_count`, sets `updated_at`, and
inserts one log row with type `bump` and the fixed note. -/
def bumpContact (s : DBState) (cid : Nat) (now : ℚ) : DBState :=
  let updated := updateWhereId s.contacts cid
    (fun c => { c with lastBumpDate := some now, bumpCount := c.bumpCount + 1 }) now
  insertLog { s with contacts := updated } cid "bump" (some "Contact reviewed and bumped") now

/-- `AddInteractionNote` (internal/db/db.go, lines 156-171): rejects empty
notes before any write, otherwise inserts one log row and touches no
contact field. -/
def addInteractionNote (s : DBState) (cid : Nat) (itype notes : String) (now : ℚ) :
    Except String DBState :=
  if notes = "" then .error "notes cannot be empty"
  else .ok (insertLog s cid itype (some notes) now)

/-- `UpdateContactState` (internal/db/db.go, lines 146-153): `UPDATE
contacts SET state = ?, updated_at = CURRENT_TIMESTAMP WHERE id = ?`.
The `CHECK` constraint on the state column is not modelled. -/
def updateContactState (s : DBState) (cid : Nat) (st : String) (now : ℚ) : DBState :=
  { s with contacts := updateWhereId s.contacts cid (fun c => { c with state := some st }) now }

/-- `UpdateContactStyle` (internal/db/db.go, lines 383-400): when a custom
frequency is supplied it stores the style and that frequency; when none is
supplied it stores the style and sets `custom_frequency_days = NULL`.  The
style string is stored without any vocabulary validation. -/
def updateContactStyle (s : DBState) (cid : Nat) (style : String)
    (customFrequencyDays : Option Int) (now : ℚ) : DBState :=
  match customFrequencyDays with
  | some d =>
      let updated := updateWhereId s.contacts cid
        (fun c => { c with contactStyle := style, customFrequencyDays := some d }) now
      { s with contacts := updated }
  | none =>
      let updated := updateWhereId s.contacts cid
        (fun c => { c with contactStyle := style, customFrequencyDays := none }) now
      { s with contacts := updated }

/-- `ArchiveContact` (internal/db/db.go, lines 271-284). -/
def archiveContact (s : DBState) (cid : Nat) (now : ℚ) : DBState :=
  let updated := updateWhereId s.contacts cid
    (fun c => { c with archived := true, archivedAt := some now }) now
  { s with contacts := updated }

/-- `UnarchiveContact` (internal/db/db.go, lines 287-300). -/
def unarchiveContact (s : DBState) (cid : Nat) (now : ℚ) : DBState :=
  let updated := updateWhereId s.contacts cid
    (fun c => { c with archived := false, archivedAt := none }) now
  { s with contacts := updated }

/-- `UpdateContact` (internal/db/db.go): overwrites name, email, phone,
company, relationship_type, notes and label of the row whose id matches
the record's id, and touches `updated_at`. -/
def setContactFields (contact c : Contact) : Contact :=
  { c with
    name := contact.name
    email := contact.email
    phone := contact.phone
    company := contact.company
    relationshipType := contact.relationshipType
    notes := contact.notes
    label := contact.label }

/-- `UpdateContact`, see `setContactFields` for its SET clause. -/
def updateContactFields (s : DBState) (contact : Contact) (now : ℚ) : DBState :=
  let updated := updateWhereId s.contacts contact.id (setContactFields contact) now
  { s with contacts := updated }

/-- `DeleteContact` (internal/db/db.go): one transaction deleting the
contact's interaction logs and then the contact row. -/
def deleteContact (s : DBState) (cid : Nat) : DBState :=
  { s with logs := s.logs.filter (fun l => l.contactID ≠ cid),
           contacts := s.contacts.filter (fun c => c.id ≠ cid) }

/-- `AddContact` (internal/db/db.go): the INSERT names only the columns
name, email, phone, company, relationship_type, state, notes, label (plus
the two timestamps); every other column takes its schema default —
contacted_at NULL, last_bump_date NULL, bump_count 0, archived 0,
archived_at NULL, contact_style 'periodic', custom_frequency_days NULL. -/
def newContactRow (s : DBState) (contact : Contact) (now : ℚ) : Contact :=
  { id := s.nextContactId, name := contact.name, email := contact.email,
    phone := contact.phone, company := contact.company,
    relationshipType := contact.relationshipType, state := contact.state,
    notes := contact.notes, label := contact.label,
    basicMemoryURL := none, contactedAt := none, lastBumpDate := none,
    bumpCount := 0, followUpDate := none, deadlineDate := none,
    archived := false, archivedAt := none, contactStyle := "periodic",
    customFrequencyDays := none, createdAt := now, updatedAt := now }

/-- The INSERT of `AddContact` appended to the table, with the
autoincrement id. -/
def addContact (s : DBState) (contact : Contact) (now : ℚ) : DBState :=
  { s with contacts := s.contacts ++ [newContactRow s contact now],
           nextContactId := s.nextContactId + 1 }

/-- `UpdateInteraction` (internal/db/db.go): rewrites type and notes of a
single `contact_interactions` row; no trigger watches that table. -/
def updateInteraction (s : DBState) (lid : Nat) (itype notes : String) : DBState :=
  { s with logs := s.logs.map fun l =>
      if l.id = lid then { l with interactionType := itype, notes := some notes } else l }

/-- `DeleteInteraction` (internal/db/db.go). -/
def deleteInteraction (s : DBState) (lid : Nat) : DBState :=
  { s with logs := s.logs.filter fun l => l.id ≠ lid }

/-- Visible database state after a call whose compound writes run inside
`BEGIN ... COMMIT` with a deferred `ROLLBACK`: an error publishes
nothing, so the caller still sees the prior state. -/
def txVisible (r : Except String DBState) (s : DBState) : DBState :=
  match r with
  | .ok s2 => s2
  | .error _ => s

/-- `MarkContacted` with an explicit failure point for each step of its
transaction (Begin, the UPDATE, the INSERT, Commit), mirroring the Go
control flow `tx.Begin; defer tx.Rollback; Exec; Exec; tx.Commit`. -/
def markContactedRun (s : DBState) (cid : Nat) (itype notes : String) (now : ℚ)
    (beginFails updateFails insertFails commitFails : Bool) : Except String DBState :=
  if beginFails then .error "starting transaction" else
  if updateFails then .error "updating contact" else
  let updated := updateWhereId s.contacts cid (fun c => { c with contactedAt := some now }) now
  let s1 := { s with contacts := updated }
  if insertFails then .error "inserting interaction log" else
  let s2 := insertLog s1 cid itype (some notes) now
  if commitFails then .error "committing transaction" else
  .ok s2

/-- `BumpContact` with an explicit failure point for each step of its
transaction, mirroring the same Go control flow. -/
def bumpContactRun (s : DBState) (cid : Nat) (now : ℚ)
    (beginFails updateFails insertFails commitFails : Bool) : Except String DBState :=
  if beginFails then .error "starting transaction" else
  if updateFails then .error "updating contact" else
  let updated := updateWhereId s.contacts cid
    (fun c => { c with lastBumpDate := some now, bumpCount := c.bumpCount + 1 }) now
  let s1 := { s with contacts := updated }
  if insertFails then .error "inserting bump log" else
  let s2 := insertLog s1 cid "bump" (some "Contact reviewed and bumped") now
  if commitFails then .error "committing transaction" else
  .ok s2

/-- The style-selection dispatch of the TUI (internal/tui/app.go,
`Model.Update`, style mode): choosing `periodic` prompts for a frequency
and passes the parsed number, or nil when the input is empty or does not
parse; choosing any other style calls `UpdateContactStyle` with nil. -/
def uiApplyStyle (s : DBState) (cid : Nat) (style : String) (parsedFreq : Option Int)
    (now : ℚ) : DBState :=
  if style = "periodic" then updateContactStyle s cid "periodic" parsedFreq now
  else updateContactStyle s cid style none now

/-- The mutation protocol as one vocabulary of operations with their
successful-path semantics, for invariants quantified over every
operation. -/
inductive Op where
  | addContact (c : Contact)
  | markContacted (cid : Nat) (itype notes : String)
  | bump (cid : Nat)
  | addNote (cid : Nat) (itype notes : String)
  | updateFields (c : Contact)
  | updateState (cid : Nat) (st : String)
  | updateStyle (cid : Nat) (style : String) (freq : Option Int)
  | archive (cid : Nat)
  | unarchive (cid : Nat)
  | delete (cid : Nat)
  | updateInteraction (lid : Nat) (itype notes : String)
  | deleteInteraction (lid : Nat)

/-- Dispatch of an operation against the store.  Only add-interaction-note
can reject its input (empty notes); every other operation's successful
path is total. -/
def applyOp (op : Op) (now : ℚ) (s : DBState) : Except String DBState :=
  match op with
  | .addContact c => .ok (addContact s c now)
  | .markContacted cid it n => .ok (markContacted s cid it n now)
  | .bump cid => .ok (bumpContact s cid now)
  | .addNote cid it n => addInteractionNote s cid it n now
  | .updateFields c => .ok (updateContactFields s c now)
  | .updateState cid st => .ok (updateContactState s cid st now)
  | .updateStyle cid st f => .ok (updateContactStyle s cid st f now)
  | .archive cid => .ok (archiveContact s cid now)
  | .unarchive cid => .ok (unarchiveContact s cid now)
  | .delete cid => .ok (deleteContact s cid)
  | .updateInteraction lid it n => .ok (updateInteraction s lid it n)
  | .deleteInteraction lid => .ok (deleteInteraction s lid)

/-- The empty store. -/
def emptyDB : DBState := { contacts := [], logs := [], nextContactId := 1, nextLogId := 1 }

/-- A store holding exactly one fresh contact, `baseContact`. -/
def oneContactDB : DBState :=
  { contacts := [baseContact], logs := [], nextContactId := 2, nextLogId := 1 }

/-- A store whose single contact carries a custom frequency of 45 days. -/
def freqContactDB : DBState :=
  { contacts := [{ baseContact with customFrequencyDays := some 45 }],
    logs := [], nextContactId := 2, nextLogId := 1 }

/-- The data-model invariant: a row is archived exactly when archivedAt is
present. -/
def archivedConsistent (s : DBState) : Prop :=
  ∀ c ∈ s.contacts, c.archivedAt.isSome = c.archived

/-- Written from the spec and claim wording, for comparison with the code:
the default cadence keyed by relationship type — close and family 30 days,
network 90, every other type 60. -/
def specDefaultThreshold (rt : String) : Int :=
  if rt = "close" ∨ rt = "family" then 30
  else if rt = "network" then 90
  else 60

/-- Written from the claim wording: the effective threshold — the custom
frequency when set and positive, otherwise the type default. -/
def specThreshold (c : Contact) : Int :=
  match c.customFrequencyDays with
  | some d => if 0 < d then d else specDefaultThreshold c.relationshipType
  | none => specDefaultThreshold c.relationshipType

/-- Written from the claim wording: the later of contactedAt and
lastBumpDate when both are present, the one present otherwise. -/
def specLastEngagement (c : Contact) : Option ℚ :=
  match c.contactedAt, c.lastBumpDate with
  | some a, some b => some (max a b)
  | some a, none => some a
  | none, some b => some b
  | none, none => none

/-- The number of days from t to now, over exact rationals. -/
def daysBetween (t now : ℚ) : ℚ := (now - t) / 86400

/-- Go computes days as Hours()/24; over exact rationals that equals a
single division by 86400. -/
theorem daysSince_as_days (t now : ℚ) : (now - t) / 3600 / 24 = daysBetween t now := by
  unfold daysBetween
  rw [div_div]
  norm_num

/-- The relationship-type switch agrees with the spec-side default
threshold comparison. -/
theorem overdueByType_eq_decide (rt : String) (x : ℚ) :
    overdueByType rt x = decide (x > (specDefaultThreshold rt : ℚ)) := by
  unfold overdueByType specDefaultThreshold
  split_ifs <;> norm_num

/-- The custom-frequency check plus switch agrees with the spec-side
effective threshold comparison. -/
theorem thresholdCheck_eq_decide (c : Contact) (x : ℚ) :
    thresholdCheck c x = decide (x > (specThreshold c : ℚ)) := by
  unfold thresholdCheck specThreshold
  rcases c.customFrequencyDays with _ | d
  · exact overdueByType_eq_decide c.relationshipType x
  · dsimp only
    split_ifs with h
    · rfl
    · exact overdueByType_eq_decide c.relationshipType x

/-- For a non-archived contact in neither opt-out style, IsOverdue is the
pure periodic rule: immediately overdue with no engagement, otherwise the
strict threshold comparison on days since the last engagement. -/
theorem isOverdue_periodic_eval (c : Contact) (now : ℚ)
    (ha : c.archived = false)
    (h1 : c.contactStyle ≠ "ambient") (h2 : c.contactStyle ≠ "triggered") :
    c.IsOverdue now =
      match specLastEngagement c with
      | none => true
      | some t => decide (daysBetween t now > (specThreshold c : ℚ)) := by
  have hsty : ¬ (c.contactStyle = "ambient" ∨ c.contactStyle = "triggered") := by
    rintro (h | h)
    · exact h1 h
    · exact h2 h
  unfold Contact.IsOverdue specLastEngagement
  rw [if_neg (by simp [ha]), if_neg hsty]
  rcases hca : c.contactedAt with _ | ca <;> rcases hlb : c.lastBumpDate with _ | lb
  · simp
  · simp [daysSince_as_days, thresholdCheck_eq_decide]
  · simp [daysSince_as_days, thresholdCheck_eq_decide]
  · dsimp only
    rcases lt_or_le lb ca with h | h
    · rw [if_pos h, max_eq_left (le_of_lt h)]
      simp [daysSince_as_days, thresholdCheck_eq_decide]
    · rw [if_neg (not_lt.2 h), max_eq_right h]
      simp [daysSince_as_days, thresholdCheck_eq_decide]

/-- A row found by id satisfies the id predicate. -/
theorem getContact_id (s : DBState) (cid : Nat) (c : Contact)
    (h : getContact s cid = some c) : c.id = cid := by
  unfold getContact at h
  have := List.find?_some h
  simpa using this

/-- Finding by id commutes with an id-preserving per-row UPDATE. -/
theorem find?_updateWhereId (l : List Contact) (cid tid : Nat) (f : Contact → Contact)
    (now : ℚ) (hf : ∀ c, (f c).id = c.id) :
    (updateWhereId l cid f now).find? (fun c => c.id = tid)
      = (l.find? (fun c => c.id = tid)).map
          (fun c => if c.id = cid then { f c with updatedAt := now } else c) := by
  unfold updateWhereId
  rw [List.find?_map]
  have hp : ((fun c : Contact => decide (c.id = tid)) ∘
      (fun c => if c.id = cid then { f c with updatedAt := now } else c))
      = fun c : Contact => decide (c.id = tid) := by
    funext c
    by_cases h : c.id = cid
    · simp [Function.comp, h, hf]
    · simp [Function.comp, h]
  rw [hp]

/-- `getContact` after an id-preserving UPDATE. -/
theorem getContact_updateWhereId (s : DBState) (cid tid : Nat) (f : Contact → Contact)
    (now : ℚ) (hf : ∀ c, (f c).id = c.id) :
    getContact { s with contacts := updateWhereId s.contacts cid f now } tid
      = (getContact s tid).map
          (fun c => if c.id = cid then { f c with updatedAt := now } else c) :=
  find?_updateWhereId s.contacts cid tid f now hf

/-- An UPDATE whose id matches no row leaves the table unchanged. -/
theorem updateWhereId_not_found (l : List Contact) (cid : Nat) (f : Contact → Contact)
    (now : ℚ) (h : l.find? (fun c => c.id = cid) = none) :
    updateWhereId l cid f now = l := by
  unfold updateWhereId
  rw [List.find?_eq_none] at h
  have hmap : ∀ c ∈ l, (if c.id = cid then { f c with updatedAt := now } else c) = c := by
    intro c hc
    have hne := h c hc
    simp only [decide_eq_true_iff] at hne
    simp [hne]
  calc l.map (fun c => if c.id = cid then { f c with updatedAt := now } else c)
      = l.map id := List.map_congr_left hmap
    _ = l := List.map_id l

/-- Inserting a log row does not change the contacts table. -/
theorem getContact_insertLog (s : DBState) (cid : Nat) (it : String) (n : Option String)
    (now : ℚ) (tid : Nat) :
    getContact (insertLog s cid it n now) tid = getContact s tid := rfl

/-- `UpdateContactStyle` on an existing row: stores the style verbatim and
stores exactly the supplied frequency (or NULL), and the trigger touches
`updated_at`. -/
theorem getContact_updateContactStyle (s : DBState) (cid : Nat) (st : String)
    (freq : Option Int) (now : ℚ) (c : Contact) (h : getContact s cid = some c) :
    getContact (updateContactStyle s cid st freq now) cid
      = some { c with contactStyle := st, customFrequencyDays := freq, updatedAt := now } := by
  have hid := getContact_id s cid c h
  cases freq with
  | none =>
      have h2 := getContact_updateWhereId s cid cid
        (fun c => { c with contactStyle := st, customFrequencyDays := none }) now
        (fun c => rfl)
      rw [h, Option.map_some'] at h2
      rw [if_pos hid] at h2
      exact h2
  | some d =>
      have h2 := getContact_updateWhereId s cid cid
        (fun c => { c with contactStyle := st, customFrequencyDays := some d }) now
        (fun c => rfl)
      rw [h, Option.map_some'] at h2
      rw [if_pos hid] at h2
      exact h2

/-- Any id-preserving UPDATE on a row that exists: the row afterwards is
the transformed row with `updated_at` set by the trigger. -/
theorem getContact_update_found (s : DBState) (cid : Nat) (f : Contact → Contact) (now : ℚ)
    (c : Contact) (hf : ∀ x, (f x).id = x.id) (h : getContact s cid = some c) :
    getContact { s with contacts := updateWhereId s.contacts cid f now } cid
      = some { f c with updatedAt := now } := by
  have hid := getContact_id s cid c h
  have h2 := getContact_updateWhereId s cid cid f now hf
  rw [h, Option.map_some'] at h2
  rw [if_pos hid] at h2
  exact h2

/-- An UPDATE aimed at an id that matches no row changes nothing. -/
theorem update_not_found (s : DBState) (cid : Nat) (f : Contact → Contact) (now : ℚ)
    (h : getContact s cid = none) :
    ({ s with contacts := updateWhereId s.contacts cid f now } : DBState) = s := by
  conv_lhs => rw [updateWhereId_not_found s.contacts cid f now h]

/-- C1: for every non-archived contact with contactStyle periodic,
IsOverdue returns true when neither contactedAt nor lastBumpDate is
present; otherwise it returns true iff the days from the later of the two
to now strictly exceed the threshold — customFrequencyDays when set and
positive, else 30 for close/family, 90 for network, 60 for every other
type; exactly at the threshold is not overdue. -/
theorem isOverdue_periodic_rule (c : Contact) (now : ℚ)
    (ha : c.archived = false) (hs : c.contactStyle = "periodic") :
    (specLastEngagement c = none → c.IsOverdue now = true) ∧
    (∀ t, specLastEngagement c = some t →
      (c.IsOverdue now = true ↔ daysBetween t now > (specThreshold c : ℚ))) := by
  have h1 : c.contactStyle ≠ "ambient" := by rw [hs]; decide
  have h2 : c.contactStyle ≠ "triggered" := by rw [hs]; decide
  have he := isOverdue_periodic_eval c now ha h1 h2
  constructor
  · intro hnone
    rw [he, hnone]
  · intro t ht
    rw [he, ht]
    simp

/-- Witness for C1: a periodic close contact last contacted 31 days ago is
overdue (threshold 30). -/
theorem isOverdue_periodic_rule_witness :
    Contact.IsOverdue { baseContact with relationshipType := "close", contactedAt := some 0 }
      (31 * 86400) = true :=
  ((isOverdue_periodic_rule
      { baseContact with relationshipType := "close", contactedAt := some 0 }
      (31 * 86400) rfl rfl).2 0 rfl).2
    (by norm_num [daysBetween, specThreshold, specDefaultThreshold, baseContact])

/-- C2: an archived contact is never overdue, whatever its other fields;
a non-archived contact in style ambient or triggered is never overdue,
whatever its timestamps, custom frequency and relationship type. -/
theorem isOverdue_archived_or_optout (c : Contact) (now : ℚ) :
    (c.archived = true → c.IsOverdue now = false) ∧
    (c.archived = false →
      (c.contactStyle = "ambient" ∨ c.contactStyle = "triggered") →
      c.IsOverdue now = false) := by
  constructor
  · intro h
    unfold Contact.IsOverdue
    rw [if_pos h]
  · intro ha h2
    unfold Contact.IsOverdue
    rw [if_neg (by simp [ha]), if_pos h2]

/-- Witness for C2: an archived contact and a triggered contact, both
never engaged, are not overdue. -/
theorem isOverdue_archived_or_optout_witness :
    Contact.IsOverdue { baseContact with archived := true, archivedAt := some 0 } 0 = false ∧
    Contact.IsOverdue { baseContact with contactStyle := "triggered" } 0 = false :=
  ⟨(isOverdue_archived_or_optout { baseContact with archived := true, archivedAt := some 0 } 0).1 rfl,
   (isOverdue_archived_or_optout { baseContact with contactStyle := "triggered" } 0).2 rfl (Or.inr rfl)⟩

/-- C10: a non-archived contact whose style is any string other than
ambient and triggered — including the empty string and other
out-of-vocabulary values, which UpdateContactStyle stores verbatim —
is evaluated by IsOverdue exactly like the same contact restyled
periodic. -/
theorem isOverdue_unknown_style_periodic (c : Contact) (now : ℚ)
    (s : DBState) (cid : Nat) (freq : Option Int) (t : ℚ) (c0 : Contact)
    (ha : c.archived = false)
    (h1 : c.contactStyle ≠ "ambient") (h2 : c.contactStyle ≠ "triggered")
    (hc0 : getContact s cid = some c0) :
    c.IsOverdue now = Contact.IsOverdue { c with contactStyle := "periodic" } now ∧
    (getContact (updateContactStyle s cid c.contactStyle freq t) cid).map Contact.contactStyle
      = some c.contactStyle := by
  constructor
  · rw [isOverdue_periodic_eval c now ha h1 h2,
        isOverdue_periodic_eval { c with contactStyle := "periodic" } now ha
          (by simp) (by simp)]
    have h3 : specLastEngagement { c with contactStyle := "periodic" } = specLastEngagement c := rfl
    have h4 : specThreshold { c with contactStyle := "periodic" } = specThreshold c := rfl
    rw [h3, h4]
  · rw [getContact_updateContactStyle s cid c.contactStyle freq t c0 hc0, Option.map_some']

/-- Witness for C10: a contact with the out-of-vocabulary style "weekly",
never engaged, is overdue just like a periodic one, and the style string
is stored verbatim. -/
theorem isOverdue_unknown_style_periodic_witness :
    Contact.IsOverdue { baseContact with contactStyle := "weekly" } 0
      = Contact.IsOverdue { { baseContact with contactStyle := "weekly" } with contactStyle := "periodic" } 0 ∧
    (getContact (updateContactStyle oneContactDB 1 "weekly" none 7) 1).map Contact.contactStyle
      = some "weekly" :=
  isOverdue_unknown_style_periodic { baseContact with contactStyle := "weekly" } 0
    oneContactDB 1 none 7 baseContact rfl (by decide) (by decide) rfl

/-- Filtering out one id leaves lookups of any other id unchanged. -/
theorem find?_filter_ne_id (l : List Contact) (cid tid : Nat) (hne : tid ≠ cid) :
    (l.filter (fun c => c.id ≠ cid)).find? (fun c => c.id = tid)
      = l.find? (fun c => c.id = tid) := by
  rw [List.find?_filter]
  congr 1
  funext c
  by_cases h : c.id = tid
  · simp [h, hne]
  · simp [h]

/-- After filtering out an id, that id is gone. -/
theorem find?_filter_self_id (l : List Contact) (cid : Nat) :
    (l.filter (fun c => c.id ≠ cid)).find? (fun c => c.id = cid) = none := by
  rw [List.find?_filter, List.find?_eq_none]
  intro x _
  simp

/-- C9 as stated is false at a concrete input: mark-contacted does change
updatedAt, because the schema trigger update_contact_timestamp fires on
the contacted_at UPDATE. -/
theorem markContacted_updatedAt_cex :
    (getContact (markContacted oneContactDB 1 "email" "hi" 86400) 1).map Contact.updatedAt
      ≠ (getContact oneContactDB 1).map Contact.updatedAt := by decide

/-- C9 amended: mark-contacted changes the row's contactedAt and — via the
update_contact_timestamp trigger — its updatedAt, leaving every other
column of the row unchanged; and every other field-mutating operation
(bump, state, style, archive, unarchive, update-fields) also sets
updatedAt to the operation time. -/
theorem markContacted_frame (s : DBState) (cid : Nat) (it n st style : String)
    (freq : Option Int) (r : Contact) (now : ℚ) (c : Contact)
    (h : getContact s cid = some c) (hr : r.id = cid) :
    getContact (markContacted s cid it n now) cid
      = some { c with contactedAt := some now, updatedAt := now } ∧
    (getContact (bumpContact s cid now) cid).map Contact.updatedAt = some now ∧
    (getContact (updateContactState s cid st now) cid).map Contact.updatedAt = some now ∧
    (getContact (updateContactStyle s cid style freq now) cid).map Contact.updatedAt = some now ∧
    (getContact (archiveContact s cid now) cid).map Contact.updatedAt = some now ∧
    (getContact (unarchiveContact s cid now) cid).map Contact.updatedAt = some now ∧
    (getContact (updateContactFields s r now) cid).map Contact.updatedAt = some now := by
  refine ⟨?_, ?_, ?_, ?_, ?_, ?_, ?_⟩
  · exact getContact_update_found s cid (fun x => { x with contactedAt := some now }) now c
      (fun x => rfl) h
  · rw [show getContact (bumpContact s cid now) cid
        = some { c with lastBumpDate := some now, bumpCount := c.bumpCount + 1, updatedAt := now }
      from getContact_update_found s cid
        (fun x => { x with lastBumpDate := some now, bumpCount := x.bumpCount + 1 }) now c
        (fun x => rfl) h]
    rfl
  · rw [show getContact (updateContactState s cid st now) cid
        = some { c with state := some st, updatedAt := now }
      from getContact_update_found s cid (fun x => { x with state := some st }) now c
        (fun x => rfl) h]
    rfl
  · rw [getContact_updateContactStyle s cid style freq now c h]
    rfl
  · rw [show getContact (archiveContact s cid now) cid
        = some { c with archived := true, archivedAt := some now, updatedAt := now }
      from getContact_update_found s cid
        (fun x => { x with archived := true, archivedAt := some now }) now c
        (fun x => rfl) h]
    rfl
  · rw [show getContact (unarchiveContact s cid now) cid
        = some { c with archived := false, archivedAt := none, updatedAt := now }
      from getContact_update_found s cid
        (fun x => { x with archived := false, archivedAt := none }) now c
        (fun x => rfl) h]
    rfl
  · rw [show getContact (updateContactFields s r now) cid
        = some { setContactFields r c with updatedAt := now }
      from hr ▸ getContact_update_found s r.id (setContactFields r) now c
        (fun x => rfl) (hr ▸ h)]
    rfl

/-- Witness for the amended C9 at a concrete store. -/
theorem markContacted_frame_witness :
    getContact (markContacted oneContactDB 1 "email" "hello" 9) 1
      = some { baseContact with contactedAt := some 9, updatedAt := 9 } ∧
    (getContact (bumpContact oneContactDB 1 9) 1).map Contact.updatedAt = some 9 ∧
    (getContact (updateContactState oneContactDB 1 "ping" 9) 1).map Contact.updatedAt = some 9 ∧
    (getContact (updateContactStyle oneContactDB 1 "ambient" none 9) 1).map Contact.updatedAt = some 9 ∧
    (getContact (archiveContact oneContactDB 1 9) 1).map Contact.updatedAt = some 9 ∧
    (getContact (unarchiveContact oneContactDB 1 9) 1).map Contact.updatedAt = some 9 ∧
    (getContact (updateContactFields oneContactDB baseContact 9) 1).map Contact.updatedAt = some 9 :=
  markContacted_frame oneContactDB 1 "email" "hello" "ping" "ambient" none baseContact 9
    baseContact rfl rfl

/-- C5 as stated is false: UpdateContactStyle invoked with the
non-periodic style "ambient" and a supplied frequency stores that
frequency instead of forcing it absent. -/
theorem updateContactStyle_nonperiodic_cex :
    ¬ (∀ (s : DBState) (cid : Nat) (style : String) (freq : Option Int) (now : ℚ)
        (c : Contact),
        style ≠ "periodic" →
        getContact (updateContactStyle s cid style freq now) cid = some c →
        c.customFrequencyDays = none) := by
  intro hclaim
  have h := hclaim oneContactDB 1 "ambient" (some 45) 3
    { baseContact with contactStyle := "ambient", customFrequencyDays := some 45, updatedAt := 3 }
    (by decide) (by decide)
  exact absurd h (by decide)

/-- C5 amended: after update-style the row's contactStyle equals the given
style and customFrequencyDays equals exactly the supplied optional value,
whatever the style; the TUI passes no value whenever the chosen style is
not periodic, so an update-style issued through the UI with a non-periodic
style always forces customFrequencyDays absent, clearing any previous
value. -/
theorem updateContactStyle_semantics (s : DBState) (cid : Nat) (style : String)
    (freq : Option Int) (now : ℚ) (c : Contact) (h : getContact s cid = some c) :
    getContact (updateContactStyle s cid style freq now) cid
      = some { c with contactStyle := style, customFrequencyDays := freq, updatedAt := now } ∧
    (style ≠ "periodic" →
      getContact (uiApplyStyle s cid style freq now) cid
        = some { c with contactStyle := style, customFrequencyDays := none, updatedAt := now }) := by
  constructor
  · exact getContact_updateContactStyle s cid style freq now c h
  · intro hstyle
    unfold uiApplyStyle
    rw [if_neg hstyle]
    exact getContact_updateContactStyle s cid style none now c h

/-- Witness for the amended C5: the UI setting style ambient on a contact
that had customFrequencyDays = 45 clears the custom frequency. -/
theorem updateContactStyle_semantics_witness :
    getContact (uiApplyStyle freqContactDB 1 "ambient" (some 45) 3) 1
      = some { { baseContact with customFrequencyDays := some 45 } with
               contactStyle := "ambient", customFrequencyDays := none, updatedAt := 3 } :=
  (updateContactStyle_semantics freqContactDB 1 "ambient" (some 45) 3
    { baseContact with customFrequencyDays := some 45 } rfl).2 (by decide)

/-- C6 as stated is false at a concrete input: an id-based mutation on a
missing id reports success rather than a validation error, and bump even
mutates the store by inserting its log row. -/
theorem notfound_no_error_cex :
    applyOp (Op.updateState 1 "ping") 0 emptyDB = .ok emptyDB ∧
    (bumpContact emptyDB 1 0).logs.length = emptyDB.logs.length + 1 := by
  constructor
  · rfl
  · decide

/-- C6 amended: an id-based mutation whose id matches no row surfaces no
error and is a no-op on the contacts table: update-state, update-style,
archive, unarchive and update-fields leave the store unchanged, while
mark-contacted and bump still insert their one log row (now referencing
the missing id) and delete still removes any log rows carrying that id. -/
theorem notfound_semantics (s : DBState) (cid : Nat) (st style it n : String)
    (freq : Option Int) (r : Contact) (now : ℚ)
    (h : getContact s cid = none) (hr : r.id = cid) :
    updateContactState s cid st now = s ∧
    updateContactStyle s cid style freq now = s ∧
    archiveContact s cid now = s ∧
    unarchiveContact s cid now = s ∧
    updateContactFields s r now = s ∧
    markContacted s cid it n now = insertLog s cid it (some n) now ∧
    bumpContact s cid now = insertLog s cid "bump" (some "Contact reviewed and bumped") now ∧
    (deleteContact s cid).contacts = s.contacts ∧
    (deleteContact s cid).logs = s.logs.filter (fun l => l.contactID ≠ cid) ∧
    ∀ l ∈ (deleteContact s cid).logs, l.contactID ≠ cid := by
  refine ⟨?_, ?_, ?_, ?_, ?_, ?_, ?_, ?_, rfl, ?_⟩
  · exact update_not_found s cid _ now h
  · cases freq with
    | none => exact update_not_found s cid _ now h
    | some d => exact update_not_found s cid _ now h
  · exact update_not_found s cid _ now h
  · exact update_not_found s cid _ now h
  · exact update_not_found s r.id (setContactFields r) now (by rw [hr]; exact h)
  · show insertLog { s with contacts := updateWhereId s.contacts cid _ now } cid it (some n) now = _
    rw [update_not_found s cid _ now h]
  · show insertLog { s with contacts := updateWhereId s.contacts cid _ now } cid "bump"
      (some "Contact reviewed and bumped") now = _
    rw [update_not_found s cid _ now h]
  · show s.contacts.filter (fun c => c.id ≠ cid) = s.contacts
    rw [List.filter_eq_self]
    intro c hc
    unfold getContact at h
    have := List.find?_eq_none.1 h c hc
    simpa using this
  · intro l hl
    have hl2 : l ∈ s.logs.filter (fun l => l.contactID ≠ cid) := hl
    have := (List.mem_filter.1 hl2).2
    simpa using this

/-- Witness for the amended C6 on the empty store. -/
theorem notfound_semantics_witness :
    updateContactState emptyDB 1 "ping" 0 = emptyDB ∧
    updateContactStyle emptyDB 1 "ambient" none 0 = emptyDB ∧
    archiveContact emptyDB 1 0 = emptyDB ∧
    unarchiveContact emptyDB 1 0 = emptyDB ∧
    updateContactFields emptyDB baseContact 0 = emptyDB ∧
    markContacted emptyDB 1 "email" "x" 0 = insertLog emptyDB 1 "email" (some "x") 0 ∧
    bumpContact emptyDB 1 0 = insertLog emptyDB 1 "bump" (some "Contact reviewed and bumped") 0 ∧
    (deleteContact emptyDB 1).contacts = emptyDB.contacts ∧
    (deleteContact emptyDB 1).logs = emptyDB.logs.filter (fun l => l.contactID ≠ 1) ∧
    ∀ l ∈ (deleteContact emptyDB 1).logs, l.contactID ≠ 1 :=
  notfound_semantics emptyDB 1 "ping" "ambient" "email" "x" none baseContact 0 rfl rfl

/-- C8: add-interaction-note with empty notes fails with the validation
error before touching storage — the visible state is unchanged, zero log
rows are created — while mark-contacted accepts empty notes and still
appends exactly its one log row. -/
theorem emptyNotes_semantics (s : DBState) (cid : Nat) (it : String) (now : ℚ) :
    addInteractionNote s cid it "" now = .error "notes cannot be empty" ∧
    txVisible (addInteractionNote s cid it "" now) s = s ∧
    (markContacted s cid it "" now).logs
      = s.logs ++ [{ id := s.nextLogId, contactID := cid, interactionDate := now,
                     interactionType := it, notes := some "", createdAt := now }] :=
  ⟨rfl, rfl, rfl⟩

/-- C4: each of mark-contacted and bump runs its row UPDATE and its single
log INSERT inside one transaction: whichever step fails, nothing is
published and the caller still sees the prior state; on success the
committed state is exactly the two writes, with exactly one new log row. -/
theorem tx_atomic (s : DBState) (cid : Nat) (it n : String) (now : ℚ) (b u i cm : Bool) :
    ((markContactedRun s cid it n now b u i cm).isOk = false →
      txVisible (markContactedRun s cid it n now b u i cm) s = s) ∧
    (∀ s2, markContactedRun s cid it n now b u i cm = .ok s2 →
      s2 = markContacted s cid it n now ∧ s2.logs.length = s.logs.length + 1) ∧
    ((bumpContactRun s cid now b u i cm).isOk = false →
      txVisible (bumpContactRun s cid now b u i cm) s = s) ∧
    (∀ s2, bumpContactRun s cid now b u i cm = .ok s2 →
      s2 = bumpContact s cid now ∧ s2.logs.length = s.logs.length + 1) := by
  cases b <;> cases u <;> cases i <;> cases cm <;>
    simp [markContactedRun, bumpContactRun, txVisible, markContacted, bumpContact,
          insertLog, Except.isOk, Except.toBool]

/-- Witness for C4: a failing Begin publishes nothing, and an all-success
run commits the mark-contacted state with one new log row. -/
theorem tx_atomic_witness :
    txVisible (markContactedRun emptyDB 1 "email" "x" 0 true false false false) emptyDB
      = emptyDB ∧
    (markContacted emptyDB 1 "email" "x" 0 = markContacted emptyDB 1 "email" "x" 0 ∧
      (markContacted emptyDB 1 "email" "x" 0).logs.length = emptyDB.logs.length + 1) ∧
    (bumpContact emptyDB 1 0 = bumpContact emptyDB 1 0 ∧
      (bumpContact emptyDB 1 0).logs.length = emptyDB.logs.length + 1) :=
  ⟨(tx_atomic emptyDB 1 "email" "x" 0 true false false false).1 rfl,
   (tx_atomic emptyDB 1 "email" "x" 0 false false false false).2.1
     (markContacted emptyDB 1 "email" "x" 0) rfl,
   (tx_atomic emptyDB 1 "email" "x" 0 false false false false).2.2.2
     (bumpContact emptyDB 1 0) rfl⟩

/-- An existing row is still found after an INSERT of a fresh contact. -/
theorem getContact_addContact (s : DBState) (r : Contact) (now : ℚ) (cid : Nat)
    (c : Contact) (h : getContact s cid = some c) :
    getContact (addContact s r now) cid = some c := by
  unfold getContact addContact
  dsimp only
  rw [List.find?_append]
  unfold getContact at h
  rw [h, Option.or_some]

/-- Deleting one contact leaves lookups of any other id unchanged. -/
theorem getContact_deleteContact_ne (s : DBState) (oid cid : Nat) (hne : cid ≠ oid) :
    getContact (deleteContact s oid) cid = getContact s cid := by
  unfold getContact deleteContact
  dsimp only
  exact find?_filter_ne_id s.contacts oid cid hne

/-- After deleting a contact, its id is gone. -/
theorem getContact_deleteContact_self (s : DBState) (oid : Nat) :
    getContact (deleteContact s oid) oid = none := by
  unfold getContact deleteContact
  dsimp only
  exact find?_filter_self_id s.contacts oid

/-- An id-guarded UPDATE whose per-row transform preserves the archive
invariant preserves it store-wide. -/
theorem archivedConsistent_update (s : DBState) (cid : Nat) (f : Contact → Contact)
    (now : ℚ) (hinv : archivedConsistent s)
    (hf : ∀ c, c.archivedAt.isSome = c.archived →
      (f c).archivedAt.isSome = (f c).archived) :
    archivedConsistent { s with contacts := updateWhereId s.contacts cid f now } := by
  intro x hx
  have hx2 : x ∈ s.contacts.map
      (fun c => if c.id = cid then { f c with updatedAt := now } else c) := hx
  rcases List.mem_map.1 hx2 with ⟨y, hy, rfl⟩
  by_cases hyc : y.id = cid
  · rw [if_pos hyc]
    exact hf y (hinv y hy)
  · rw [if_neg hyc]
    exact hinv y hy

/-- C7: every operation of the protocol preserves the invariant that a row
is archived exactly when archivedAt is present; archive sets archived and
stamps archivedAt with the operation time (updatedAt too, via trigger);
archiving then unarchiving restores archived = false with archivedAt
absent. -/
theorem archive_invariant (op : Op) (now : ℚ) (s s2 : DBState) (cid : Nat)
    (t t2 : ℚ) (c : Contact)
    (hinv : archivedConsistent s) (hop : applyOp op now s = .ok s2)
    (h : getContact s cid = some c) :
    archivedConsistent s2 ∧
    getContact (archiveContact s cid t) cid
      = some { c with archived := true, archivedAt := some t, updatedAt := t } ∧
    getContact (unarchiveContact (archiveContact s cid t) cid t2) cid
      = some { c with archived := false, archivedAt := none, updatedAt := t2 } := by
  refine ⟨?_, ?_, ?_⟩
  · cases op with
    | addContact r =>
        simp only [applyOp] at hop
        injection hop with hop
        subst hop
        intro x hx
        have hx2 : x ∈ s.contacts ++ [newContactRow s r now] := hx
        rcases List.mem_append.1 hx2 with hxl | hxr
        · exact hinv x hxl
        · rcases List.mem_singleton.1 hxr with rfl
          rfl
    | markContacted oid it2 n2 =>
        simp only [applyOp] at hop
        injection hop with hop
        subst hop
        exact archivedConsistent_update s oid _ now hinv (fun c0 hc0 => hc0)
    | bump oid =>
        simp only [applyOp] at hop
        injection hop with hop
        subst hop
        exact archivedConsistent_update s oid _ now hinv (fun c0 hc0 => hc0)
    | addNote oid it2 n2 =>
        simp only [applyOp] at hop
        by_cases hn : n2 = ""
        · unfold addInteractionNote at hop
          rw [if_pos hn] at hop
          cases hop
        · unfold addInteractionNote at hop
          rw [if_neg hn] at hop
          injection hop with hop
          subst hop
          exact hinv
    | updateFields r =>
        simp only [applyOp] at hop
        injection hop with hop
        subst hop
        exact archivedConsistent_update s r.id _ now hinv (fun c0 hc0 => hc0)
    | updateState oid st2 =>
        simp only [applyOp] at hop
        injection hop with hop
        subst hop
        exact archivedConsistent_update s oid _ now hinv (fun c0 hc0 => hc0)
    | updateStyle oid st2 f2 =>
        simp only [applyOp] at hop
        injection hop with hop
        subst hop
        cases f2 with
        | none => exact archivedConsistent_update s oid _ now hinv (fun c0 hc0 => hc0)
        | some d => exact archivedConsistent_update s oid _ now hinv (fun c0 hc0 => hc0)
    | archive oid =>
        simp only [applyOp] at hop
        injection hop with hop
        subst hop
        exact archivedConsistent_update s oid _ now hinv (fun c0 _ => rfl)
    | unarchive oid =>
        simp only [applyOp] at hop
        injection hop with hop
        subst hop
        exact archivedConsistent_update s oid _ now hinv (fun c0 _ => rfl)
    | delete oid =>
        simp only [applyOp] at hop
        injection hop with hop
        subst hop
        intro x hx
        exact hinv x (List.mem_of_mem_filter hx)
    | updateInteraction lid it2 n2 =>
        simp only [applyOp] at hop
        injection hop with hop
        subst hop
        exact hinv
    | deleteInteraction lid =>
        simp only [applyOp] at hop
        injection hop with hop
        subst hop
        exact hinv
  · exact getContact_update_found s cid
      (fun x => { x with archived := true, archivedAt := some t }) t c (fun x => rfl) h
  · have h1 := getContact_update_found s cid
      (fun x => { x with archived := true, archivedAt := some t }) t c (fun x => rfl) h
    exact getContact_update_found (archiveContact s cid t) cid
      (fun x => { x with archived := false, archivedAt := none }) t2
      { c with archived := true, archivedAt := some t, updatedAt := t } (fun x => rfl) h1

/-- Witness for C7: bump preserves the invariant on a one-contact store,
and archive then unarchive on that store restores the unarchived row. -/
theorem archive_invariant_witness :
    archivedConsistent (bumpContact oneContactDB 1 0) ∧
    getContact (archiveContact oneContactDB 1 5) 1
      = some { baseContact with archived := true, archivedAt := some 5, updatedAt := 5 } ∧
    getContact (unarchiveContact (archiveContact oneContactDB 1 5) 1 6) 1
      = some { baseContact with archived := false, archivedAt := none, updatedAt := 6 } :=
  archive_invariant (Op.bump 1) 0 oneContactDB (bumpContact oneContactDB 1 0) 1 5 6
    baseContact (by intro x hx; rcases List.mem_singleton.1 hx with rfl; rfl) rfl rfl

/-- An id-guarded UPDATE whose per-row transform never lowers bumpCount
never lowers the bumpCount seen through lookups. -/
theorem bumpCount_le_update (s : DBState) (oid cid : Nat) (f : Contact → Contact)
    (now : ℚ) (c c2 : Contact) (h : getContact s cid = some c)
    (hf : ∀ x, (f x).id = x.id) (hb : ∀ x, x.bumpCount ≤ (f x).bumpCount)
    (h2 : getContact { s with contacts := updateWhereId s.contacts oid f now } cid
      = some c2) :
    c.bumpCount ≤ c2.bumpCount := by
  rw [getContact_updateWhereId s oid cid f now hf, h, Option.map_some'] at h2
  injection h2 with h2
  subst h2
  by_cases hco : c.id = oid
  · rw [if_pos hco]
    exact hb c
  · rw [if_neg hco]

/-- C3: a successful bump sets lastBumpDate to the operation time,
increments bumpCount by exactly one, and appends exactly one log row of
type bump; no operation of the protocol ever decreases a row's bumpCount;
and bumping a fresh contact three times yields bumpCount 3 with three
bump log entries. -/
theorem bump_semantics (s s2 : DBState) (cid : Nat) (now now2 : ℚ)
    (c c2 : Contact) (op : Op)
    (h : getContact s cid = some c) (hop : applyOp op now2 s = .ok s2)
    (h2 : getContact s2 cid = some c2) :
    getContact (bumpContact s cid now) cid
      = some { c with lastBumpDate := some now, bumpCount := c.bumpCount + 1, updatedAt := now } ∧
    (bumpContact s cid now).logs
      = s.logs ++ [{ id := s.nextLogId, contactID := cid, interactionDate := now, interactionType := "bump", notes := some "Contact reviewed and bumped", createdAt := now }] ∧
    c.bumpCount ≤ c2.bumpCount ∧
    (getContact (bumpContact (bumpContact (bumpContact oneContactDB 1 1) 1 2) 1 3) 1).map
        Contact.bumpCount = some 3 ∧
    (bumpContact (bumpContact (bumpContact oneContactDB 1 1) 1 2) 1 3).logs.length = 3 ∧
    ∀ l ∈ (bumpContact (bumpContact (bumpContact oneContactDB 1 1) 1 2) 1 3).logs,
      l.interactionType = "bump" := by
  refine ⟨?_, rfl, ?_, by decide, by decide, by decide⟩
  · exact getContact_update_found s cid
      (fun x => { x with lastBumpDate := some now, bumpCount := x.bumpCount + 1 }) now c
      (fun x => rfl) h
  · cases op with
    | addContact r =>
        simp only [applyOp] at hop
        injection hop with hop
        subst hop
        rw [getContact_addContact s r now2 cid c h] at h2
        injection h2 with h2
        subst h2
        exact le_refl _
    | markContacted oid it2 n2 =>
        simp only [applyOp] at hop
        injection hop with hop
        subst hop
        exact bumpCount_le_update s oid cid (fun x => { x with contactedAt := some now2 })
          now2 c c2 h (fun x => rfl) (fun x => le_refl _) h2
    | bump oid =>
        simp only [applyOp] at hop
        injection hop with hop
        subst hop
        exact bumpCount_le_update s oid cid
          (fun x => { x with lastBumpDate := some now2, bumpCount := x.bumpCount + 1 })
          now2 c c2 h (fun x => rfl)
          (fun x => by show x.bumpCount ≤ x.bumpCount + 1; omega) h2
    | addNote oid it2 n2 =>
        simp only [applyOp] at hop
        by_cases hn : n2 = ""
        · unfold addInteractionNote at hop
          rw [if_pos hn] at hop
          cases hop
        · unfold addInteractionNote at hop
          rw [if_neg hn] at hop
          injection hop with hop
          subst hop
          have h3 : getContact s cid = some c2 := h2
          rw [h] at h3
          injection h3 with h3
          subst h3
          exact le_refl _
    | updateFields r =>
        simp only [applyOp] at hop
        injection hop with hop
        subst hop
        exact bumpCount_le_update s r.id cid (setContactFields r)
          now2 c c2 h (fun x => rfl) (fun x => le_refl _) h2
    | updateState oid st2 =>
        simp only [applyOp] at hop
        injection hop with hop
        subst hop
        exact bumpCount_le_update s oid cid (fun x => { x with state := some st2 })
          now2 c c2 h (fun x => rfl) (fun x => le_refl _) h2
    | updateStyle oid st2 f2 =>
        simp only [applyOp] at hop
        injection hop with hop
        subst hop
        cases f2 with
        | none =>
            exact bumpCount_le_update s oid cid
              (fun x => { x with contactStyle := st2, customFrequencyDays := none })
              now2 c c2 h (fun x => rfl) (fun x => le_refl _) h2
        | some d =>
            exact bumpCount_le_update s oid cid
              (fun x => { x with contactStyle := st2, customFrequencyDays := some d })
              now2 c c2 h (fun x => rfl) (fun x => le_refl _) h2
    | archive oid =>
        simp only [applyOp] at hop
        injection hop with hop
        subst hop
        exact bumpCount_le_update s oid cid
          (fun x => { x with archived := true, archivedAt := some now2 })
          now2 c c2 h (fun x => rfl) (fun x => le_refl _) h2
    | unarchive oid =>
        simp only [applyOp] at hop
        injection hop with hop
        subst hop
        exact bumpCount_le_update s oid cid
          (fun x => { x with archived := false, archivedAt := none })
          now2 c c2 h (fun x => rfl) (fun x => le_refl _) h2
    | delete oid =>
        simp only [applyOp] at hop
        injection hop with hop
        subst hop
        by_cases hco : cid = oid
        · subst hco
          rw [getContact_deleteContact_self s cid] at h2
          cases h2
        · rw [getContact_deleteContact_ne s oid cid hco, h] at h2
          injection h2 with h2
          subst h2
          exact le_refl _
    | updateInteraction lid it2 n2 =>
        simp only [applyOp] at hop
        injection hop with hop
        subst hop
        have h3 : getContact s cid = some c2 := h2
        rw [h] at h3
        injection h3 with h3
        subst h3
        exact le_refl _
    | deleteInteraction lid =>
        simp only [applyOp] at hop
        injection hop with hop
        subst hop
        have h3 : getContact s cid = some c2 := h2
        rw [h] at h3
        injection h3 with h3
        subst h3
        exact le_refl _

/-- Witness for C3: one bump on the fresh one-contact store. -/
theorem bump_semantics_witness :
    getContact (bumpContact oneContactDB 1 4) 1
      = some { baseContact with lastBumpDate := some 4, bumpCount := 1, updatedAt := 4 } ∧
    (bumpContact oneContactDB 1 4).logs
      = oneContactDB.logs ++ [{ id := 1, contactID := 1, interactionDate := 4,
                                interactionType := "bump",
                                notes := some "Contact reviewed and bumped", createdAt := 4 }] ∧
    baseContact.bumpCount ≤
      ({ baseContact with lastBumpDate := some 0, bumpCount := 1, updatedAt := 0 } : Contact).bumpCount ∧
    (getContact (bumpContact (bumpContact (bumpContact oneContactDB 1 1) 1 2) 1 3) 1).map
        Contact.bumpCount = some 3 ∧
    (bumpContact (bumpContact (bumpContact oneContactDB 1 1) 1 2) 1 3).logs.length = 3 ∧
    ∀ l ∈ (bumpContact (bumpContact (bumpContact oneContactDB 1 1) 1 2) 1 3).logs,
      l.interactionType = "bump" :=
  bump_semantics oneContactDB (bumpContact oneContactDB 1 0) 1 4 0 baseContact
    { baseContact with lastBumpDate := some 0, bumpCount := 1, updatedAt := 0 }
    (Op.bump 1) rfl rfl (by decide)
